import Mathlib

/-!
Shallow embedding of the Smart-Event notification fan-out engine.

Sources embedded here:
- src/functions/src/index.ts : the cloud-function handlers onEventCreated,
  onEventUpdated, onEventDeleted, sendEventReminders, deleteUser, and the
  helper getTargetAudience.
- src/src/lib/firestore.ts : registerForEvent and submitFeedback.
- src/src/types/index.ts and the shared types file: the data model
  (User, Event, TargetAudience, Registration, Feedback, Notification,
  AppError, ErrorCode).

Timestamps are modelled as Int (epoch milliseconds).  A Firestore write
batch is modelled as the list of notification records it sets; the list of
commits a handler performs is a list of such batches.  Fallible external
operations (queries, commits, auth deletions) are modelled as Except values
passed in as parameters where a claim needs fault injection.
-/

namespace SmartEvent

/-- Role of a user, from the UserRole enum in the shared types. -/
inductive UserRole where
  | admin
  | lecturer
  | student
deriving DecidableEq, Repr

/-- A user document, from the User interface.  The source field named
with the reserved word for a study class is rendered here as cls. -/
structure User where
  uid : String
  role : UserRole
  institution : String
  department : Option String
  cls : Option String
deriving DecidableEq, Repr

/-- The AudienceType enum: general, department, or class (rendered cls). -/
inductive AudienceType where
  | general
  | department
  | cls
deriving DecidableEq, Repr

/-- The TargetAudience interface: a type tag plus an optional value. -/
structure TargetAudience where
  type : AudienceType
  value : Option String
deriving DecidableEq, Repr

/-- JavaScript truthiness of the optional audience value: undefined and
the empty string are falsy, every other string is truthy. -/
def truthy : Option String → Bool
  | none => false
  | some s => s != ""

/-- A registration entry of an event. -/
structure Registration where
  studentId : String
  studentName : String
  studentEmail : String
  registeredAt : Int
deriving DecidableEq, Repr

/-- A feedback entry of an event. -/
structure Feedback where
  studentId : String
  studentName : String
  rating : Int
  comment : String
  submittedAt : Int
deriving DecidableEq, Repr

/-- An event document, from the Event interface. -/
structure Event where
  title : String
  description : String
  date : Int
  location : String
  creatorId : String
  creatorName : String
  institution : String
  targetAudience : TargetAudience
  registrations : List Registration
  feedback : List Feedback
  createdAt : Int
  updatedAt : Int
deriving DecidableEq, Repr

/-- The NotificationType enum values event_created, event_updated,
event_cancelled, event_reminder, registration_confirmed. -/
inductive NotificationType where
  | eventCreated
  | eventUpdated
  | eventCancelled
  | eventReminder
  | registrationConfirmed
deriving DecidableEq, Repr

/-- Value of an optional field of a persisted notification record,
distinguishing a field that is absent from one present with value null
and from one holding a string. -/
inductive FieldVal where
  | absent
  | null
  | str (s : String)
deriving DecidableEq, Repr

/-- A persisted notification record, the object literal passed to
batch.set in the handlers.  createdAt is a server timestamp assigned by
the store and is omitted. -/
structure NotificationRecord where
  userId : String
  type : NotificationType
  message : String
  eventId : FieldVal
  link : FieldVal
  isRead : Bool
deriving DecidableEq, Repr

/-- getTargetAudience from src/functions/src/index.ts: a users query
filtered by institution, then by role student, then - when the audience
type is department or class and its value is truthy - by the matching
field. -/
def getTargetAudience (users : List User) (institution : String)
    (targetAudience : TargetAudience) : List User :=
  let q1 := users.filter (fun u => u.institution == institution)
  let q2 := q1.filter (fun u => u.role == UserRole.student)
  if targetAudience.type == AudienceType.department && truthy targetAudience.value then
    q2.filter (fun u => u.department == targetAudience.value)
  else if targetAudience.type == AudienceType.cls && truthy targetAudience.value then
    q2.filter (fun u => u.cls == targetAudience.value)
  else
    q2

/-- The notification record the create handler sets for one user. -/
def createNotif (event : Event) (eventId : String) (user : User) : NotificationRecord :=
  { userId := user.uid
    type := NotificationType.eventCreated
    message := "New event: " ++ event.title
    eventId := FieldVal.str eventId
    link := FieldVal.str ("/events/" ++ eventId)
    isRead := false }

/-- The loop of onEventCreated over usersToNotify: the creator is skipped
(continue), every other user gets one record added to the batch. -/
def createNotifLoop (event : Event) (eventId : String) : List User → List NotificationRecord
  | [] => []
  | user :: rest =>
    if user.uid == event.creatorId then
      createNotifLoop event eventId rest
    else
      createNotif event eventId user :: createNotifLoop event eventId rest

/-- The records onEventCreated writes: the loop applied to the resolved
audience. -/
def onEventCreatedNotifs (users : List User) (event : Event) (eventId : String) :
    List NotificationRecord :=
  createNotifLoop event eventId (getTargetAudience users event.institution event.targetAudience)

/-- The batch commits onEventCreated performs: one db.batch() is built
and committed once, holding every record. -/
def onEventCreatedCommits (users : List User) (event : Event) (eventId : String) :
    List (List NotificationRecord) :=
  [onEventCreatedNotifs users event eventId]

/-- The middle disjunct of criticalFieldsChanged, the source expression
before.date !== after.date.  Each snapshot data() call deserializes the
stored date into a fresh Timestamp object, and !== between two objects
is reference comparison, never value comparison, so this test is true on
every update regardless of the stored date value.  Both snapshots are
taken as arguments so the definition has the same call shape as the
source expression. -/
def dateReferencesDiffer (_before _after : Event) : Bool := true

/-- criticalFieldsChanged from onEventUpdated: title or location differs
by string value, or the date references differ - which they always do,
see dateReferencesDiffer. -/
def criticalFieldsChanged (before after : Event) : Bool :=
  before.title != after.title || dateReferencesDiffer before after ||
    before.location != after.location

/-- The notification record the update handler sets for one registration. -/
def updateNotif (after : Event) (eventId : String) (r : Registration) : NotificationRecord :=
  { userId := r.studentId
    type := NotificationType.eventUpdated
    message := "Event \"" ++ after.title ++ "\" has been updated"
    eventId := FieldVal.str eventId
    link := FieldVal.str ("/events/" ++ eventId)
    isRead := false }

/-- The records onEventUpdated writes: nothing when no critical field
changed, otherwise one record per entry of after.registrations. -/
def onEventUpdatedNotifs (before after : Event) (eventId : String) :
    List NotificationRecord :=
  if !criticalFieldsChanged before after then []
  else after.registrations.map (updateNotif after eventId)

/-- The batch commits onEventUpdated performs: none when the handler
returns early (no critical change, or zero registrations), otherwise one
commit holding every record. -/
def onEventUpdatedCommits (before after : Event) (eventId : String) :
    List (List NotificationRecord) :=
  if !criticalFieldsChanged before after then []
  else if after.registrations.length == 0 then []
  else [onEventUpdatedNotifs before after eventId]

/-- The notification record the delete handler sets for one registration:
eventId and link are set to null explicitly. -/
def deleteNotif (event : Event) (r : Registration) : NotificationRecord :=
  { userId := r.studentId
    type := NotificationType.eventCancelled
    message := "Event \"" ++ event.title ++ "\" has been cancelled"
    eventId := FieldVal.null
    link := FieldVal.null
    isRead := false }

/-- The records onEventDeleted writes: one per entry of the deleted
event registrations list. -/
def onEventDeletedNotifs (event : Event) : List NotificationRecord :=
  event.registrations.map (deleteNotif event)

/-- The batch commits onEventDeleted performs. -/
def onEventDeletedCommits (event : Event) : List (List NotificationRecord) :=
  if event.registrations.length == 0 then []
  else [onEventDeletedNotifs event]

/-- The notification record the reminder sweep sets for one registration
of one matching event. -/
def reminderNotif (eventId : String) (event : Event) (r : Registration) : NotificationRecord :=
  { userId := r.studentId
    type := NotificationType.eventReminder
    message := "Reminder: \"" ++ event.title ++ "\" is happening soon!"
    eventId := FieldVal.str eventId
    link := FieldVal.str ("/events/" ++ eventId)
    isRead := false }

/-- The window test of the reminder sweep query: date between now and
now plus 24 hours (both endpoints inclusive, as the two Firestore range
clauses are). -/
def inReminderWindow (now : Int) (event : Event) : Bool :=
  now ≤ event.date && event.date ≤ now + 24 * 60 * 60 * 1000

/-- The records sendEventReminders writes in one run: for every event the
window query returns, one record per registration entry. -/
def sendEventRemindersNotifs (events : List (String × Event)) (now : Int) :
    List NotificationRecord :=
  (events.filter (fun p => inReminderWindow now p.2)).flatMap
    (fun p => p.2.registrations.map (reminderNotif p.1 p.2))

/-- The batch commits sendEventReminders performs: the single batch is
committed only when at least one record was added. -/
def sendEventRemindersCommits (events : List (String × Event)) (now : Int) :
    List (List NotificationRecord) :=
  let notifs := sendEventRemindersNotifs events now
  if notifs.length > 0 then [notifs] else []

/-- Outward outcome of a trigger handler: either it returned normally -
carrying the batches it durably committed - or it let an error escape to
its caller. -/
inductive HandlerOutcome where
  | returned (committed : List (List NotificationRecord))
  | threw (err : String)
deriving DecidableEq, Repr

/-- Whether the handler let an error escape. -/
def HandlerOutcome.isThrown : HandlerOutcome → Bool
  | .returned _ => false
  | .threw _ => true

/-- onEventCreated with its two fallible external operations - the
audience query and batch.commit() - injected as parameters.  The whole
body sits in a try/catch whose catch only logs, so a rejected operation
makes the handler return normally with nothing committed. -/
def onEventCreatedHandler (audienceRes : Except String (List User))
    (commitRes : Except String Unit) (event : Event) (eventId : String) : HandlerOutcome :=
  match audienceRes with
  | .error _ => .returned []
  | .ok usersToNotify =>
    match commitRes with
    | .error _ => .returned []
    | .ok _ => .returned [createNotifLoop event eventId usersToNotify]

/-- onEventUpdated with batch.commit() injected; early returns mirror the
source (no critical change, empty registrations). -/
def onEventUpdatedHandler (commitRes : Except String Unit) (before after : Event)
    (eventId : String) : HandlerOutcome :=
  if !criticalFieldsChanged before after then .returned []
  else if after.registrations.length == 0 then .returned []
  else
    match commitRes with
    | .error _ => .returned []
    | .ok _ => .returned [onEventUpdatedNotifs before after eventId]

/-- onEventDeleted with batch.commit() injected. -/
def onEventDeletedHandler (commitRes : Except String Unit) (event : Event) : HandlerOutcome :=
  if event.registrations.length == 0 then .returned []
  else
    match commitRes with
    | .error _ => .returned []
    | .ok _ => .returned [onEventDeletedNotifs event]

/-- sendEventReminders with its window query and batch.commit() injected. -/
def sendEventRemindersHandler (queryRes : Except String (List (String × Event)))
    (commitRes : Except String Unit) (now : Int) : HandlerOutcome :=
  match queryRes with
  | .error _ => .returned []
  | .ok events =>
    let notifs := sendEventRemindersNotifs events now
    if notifs.length > 0 then
      match commitRes with
      | .error _ => .returned []
      | .ok _ => .returned [notifs]
    else .returned []

/-- Error codes of functions.https.HttpsError used by the callable
functions. -/
inductive FnErrorCode where
  | unauthenticated
  | permissionDenied
  | invalidArgument
  | internal
deriving DecidableEq, Repr

/-- An HttpsError as surfaced to the caller of a callable function. -/
structure HttpsError where
  code : FnErrorCode
  message : String
deriving DecidableEq, Repr

/-- Reading a user document by id from the users collection, modelled as
lookup in an association list keyed by document id. -/
def lookupUser (users : List (String × User)) (uid : String) : Option User :=
  (users.find? (fun p => p.1 == uid)).map (fun p => p.2)

/-- The body of the try block of the deleteUser callable: admin check,
self-deletion check, institution check, then the auth-account deletion
and the document deletion (both fallible, injected). -/
def deleteUserTryBody (uid : String) (users : List (String × User)) (dataUserId : String)
    (authDeleteRes docDeleteRes : Except String Unit) : Except HttpsError Bool :=
  match lookupUser users uid with
  | none => .error ⟨FnErrorCode.permissionDenied, "Only admins can delete users"⟩
  | some caller =>
    if caller.role != UserRole.admin then
      .error ⟨FnErrorCode.permissionDenied, "Only admins can delete users"⟩
    else if dataUserId == uid then
      .error ⟨FnErrorCode.invalidArgument, "Cannot delete your own account"⟩
    else
      match lookupUser users dataUserId with
      | none => .error ⟨FnErrorCode.permissionDenied, "Cannot delete users from other institutions"⟩
      | some userToDelete =>
        if userToDelete.institution != caller.institution then
          .error ⟨FnErrorCode.permissionDenied, "Cannot delete users from other institutions"⟩
        else
          match authDeleteRes with
          | .error e => .error ⟨FnErrorCode.internal, e⟩
          | .ok _ =>
            match docDeleteRes with
            | .error e => .error ⟨FnErrorCode.internal, e⟩
            | .ok _ => .ok true

/-- The deleteUser callable as seen by its caller.  The unauthenticated
check sits outside the try block; every error the try body throws -
including the HttpsError values it builds itself - is caught by the
catch block and re-thrown as a new HttpsError with code internal and the
original message. -/
def deleteUserCallable (authUid : Option String) (users : List (String × User))
    (dataUserId : String) (authDeleteRes docDeleteRes : Except String Unit) :
    Except HttpsError Bool :=
  match authUid with
  | none => .error ⟨FnErrorCode.unauthenticated, "Must be authenticated"⟩
  | some uid =>
    match deleteUserTryBody uid users dataUserId authDeleteRes docDeleteRes with
    | .ok r => .ok r
    | .error e => .error ⟨FnErrorCode.internal, e.message⟩

/-- Error codes of the AppError class in the shared types. -/
inductive ErrorCode where
  | unauthorized
  | forbidden
  | notFound
  | alreadyExists
  | invalidInput
  | internalError
deriving DecidableEq, Repr

/-- An AppError value: code, message and HTTP status code. -/
structure AppError where
  code : ErrorCode
  message : String
  statusCode : Int
deriving DecidableEq, Repr

/-- Firestore arrayUnion: appends the element unless an equal element is
already present. -/
def arrayUnion {α : Type} [BEq α] (l : List α) (x : α) : List α :=
  if l.contains x then l else l ++ [x]

/-- registerForEvent from src/src/lib/firestore.ts, as a state-passing
function over the (single) event document.  checkAuth throws unauthorized
when there is no current user; a missing document is not_found; an entry
with the same studentId is already_exists (the AppError is re-thrown
unchanged by the catch block); otherwise the registration is appended
with a server timestamp and updatedAt refreshed.  The second component
is the event document after the call. -/
def registerForEvent (authUser : Option String) (eventDoc : Option Event)
    (registration : Registration) (nowTs : Int) :
    Except AppError Unit × Option Event :=
  match authUser with
  | none => (.error ⟨ErrorCode.unauthorized, "User not authenticated", 401⟩, eventDoc)
  | some _ =>
    match eventDoc with
    | none => (.error ⟨ErrorCode.notFound, "Event not found", 404⟩, eventDoc)
    | some event =>
      if event.registrations.any (fun r => r.studentId == registration.studentId) then
        (.error ⟨ErrorCode.alreadyExists, "Already registered for this event", 409⟩, eventDoc)
      else
        (.ok (),
         some { event with
                registrations :=
                  arrayUnion event.registrations { registration with registeredAt := nowTs }
                updatedAt := nowTs })

/-- submitFeedback from src/src/lib/firestore.ts, same shape as
registerForEvent but over the feedback list. -/
def submitFeedback (authUser : Option String) (eventDoc : Option Event)
    (feedback : Feedback) (nowTs : Int) :
    Except AppError Unit × Option Event :=
  match authUser with
  | none => (.error ⟨ErrorCode.unauthorized, "User not authenticated", 401⟩, eventDoc)
  | some _ =>
    match eventDoc with
    | none => (.error ⟨ErrorCode.notFound, "Event not found", 404⟩, eventDoc)
    | some event =>
      if event.feedback.any (fun f => f.studentId == feedback.studentId) then
        (.error ⟨ErrorCode.alreadyExists, "Feedback already submitted", 409⟩, eventDoc)
      else
        (.ok (),
         some { event with
                feedback := arrayUnion event.feedback { feedback with submittedAt := nowTs }
                updatedAt := nowTs })

/-- The target-audience descriptor as the spec describes it: a closed
tagged variant General, Department(value), Class(value). -/
inductive SpecAudience where
  | general
  | department (value : String)
  | cls (value : String)
deriving DecidableEq, Repr

/-- Modelled from the spec (section 4.1): resolve starts from all users
with role student and the given institution, and restricts to the
matching department or class when the audience carries one. -/
def resolveSpec (users : List User) (institution : String) : SpecAudience → List User
  | .general =>
      users.filter (fun u => u.role == UserRole.student && u.institution == institution)
  | .department v =>
      users.filter (fun u =>
        u.role == UserRole.student && u.institution == institution && u.department == some v)
  | .cls v =>
      users.filter (fun u =>
        u.role == UserRole.student && u.institution == institution && u.cls == some v)

/-- The descriptor object of the code corresponding to a spec audience. -/
def SpecAudience.toDescriptor : SpecAudience → TargetAudience
  | .general => ⟨AudienceType.general, none⟩
  | .department v => ⟨AudienceType.department, some v⟩
  | .cls v => ⟨AudienceType.cls, some v⟩

/-- The side condition under which the descriptor value is truthy: a
department or class audience carries a non-empty value. -/
def SpecAudience.valueNonEmpty : SpecAudience → Prop
  | .general => True
  | .department v => v ≠ ""
  | .cls v => v ≠ ""

/-! Concrete fixtures used to evaluate the definitions at specific
inputs. -/

/-- A student of institution U in department CS. -/
def u1CS : User :=
  { uid := "u1", role := UserRole.student, institution := "U",
    department := some "CS", cls := none }

/-- A lecturer of institution U. -/
def lectU : User :=
  { uid := "l1", role := UserRole.lecturer, institution := "U",
    department := some "CS", cls := none }

/-- An admin of institution U. -/
def adminU : User :=
  { uid := "a1", role := UserRole.admin, institution := "U",
    department := none, cls := none }

/-- An admin of institution V. -/
def adminV : User :=
  { uid := "a2", role := UserRole.admin, institution := "V",
    department := none, cls := none }

/-- A student of institution U, as a deletion target. -/
def studU : User :=
  { uid := "s9", role := UserRole.student, institution := "U",
    department := none, cls := none }

/-- A users collection holding the two admins and the student. -/
def usersDb : List (String × User) := [("a1", adminU), ("a2", adminV), ("s9", studU)]

/-- A registration entry whose studentId coincides with the creator of
the events below. -/
def creatorReg : Registration :=
  { studentId := "creator1", studentName := "Creator", studentEmail := "c@x",
    registeredAt := 0 }

/-- An event created by creator1, with the creator registered. -/
def evUpdBefore : Event :=
  { title := "T1", description := "d", date := 0, location := "L",
    creatorId := "creator1", creatorName := "Creator", institution := "U",
    targetAudience := ⟨AudienceType.general, none⟩,
    registrations := [creatorReg], feedback := [], createdAt := 0, updatedAt := 0 }

/-- The same event with its title changed. -/
def evUpdAfter : Event := { evUpdBefore with title := "T2" }

/-- The same event with only its description changed. -/
def evDescOnly : Event := { evUpdBefore with description := "changed" }

/-- Two registration entries for the reminder scenario. -/
def regA : Registration :=
  { studentId := "sA", studentName := "A", studentEmail := "a@x", registeredAt := 0 }

/-- Second registration entry. -/
def regB : Registration :=
  { studentId := "sB", studentName := "B", studentEmail := "b@x", registeredAt := 0 }

/-- An event 12 hours after time 0, with two registrants. -/
def evSoon : Event :=
  { title := "Soon", description := "d", date := 43200000, location := "L",
    creatorId := "c", creatorName := "C", institution := "U",
    targetAudience := ⟨AudienceType.general, none⟩,
    registrations := [regA, regB], feedback := [], createdAt := 0, updatedAt := 0 }

/-- An event 48 hours after time 0, with one registrant. -/
def evLater : Event :=
  { evSoon with title := "Later", date := 172800000, registrations := [regA] }

/-- The event store for the reminder scenario. -/
def evsEx : List (String × Event) := [("e1", evSoon), ("e2", evLater)]

/-- A registration of student s1. -/
def regS1 : Registration :=
  { studentId := "s1", studentName := "S One", studentEmail := "s1@x", registeredAt := 5 }

/-- A feedback entry of student s1. -/
def fbS1 : Feedback :=
  { studentId := "s1", studentName := "S One", rating := 4, comment := "good",
    submittedAt := 9 }

/-- An event on which s1 is already registered and has already submitted
feedback. -/
def evWithS1 : Event :=
  { title := "E", description := "d", date := 0, location := "L",
    creatorId := "c", creatorName := "C", institution := "U",
    targetAudience := ⟨AudienceType.general, none⟩,
    registrations := [regS1], feedback := [fbS1], createdAt := 0, updatedAt := 0 }

/-- The i-th student of a large institution. -/
def mkStudent (i : Nat) : User :=
  { uid := "s" ++ toString i, role := UserRole.student, institution := "U",
    department := none, cls := none }

/-- Twelve hundred students of institution U. -/
def users1200 : List User := (List.range 1200).map mkStudent

/-- An institution-wide event of institution U, created by a user who is
not among the students. -/
def evBig : Event :=
  { title := "Big", description := "d", date := 0, location := "L",
    creatorId := "c", creatorName := "C", institution := "U",
    targetAudience := ⟨AudienceType.general, none⟩,
    registrations := [], feedback := [], createdAt := 0, updatedAt := 0 }

/-! Helper lemmas about the create-branch loop. -/

/-- Every record the create loop emits comes from a non-creator user of
the input list. -/
theorem mem_createNotifLoop {event : Event} {eventId : String} :
    ∀ {us : List User} {n : NotificationRecord}, n ∈ createNotifLoop event eventId us →
      ∃ u, u ∈ us ∧ (u.uid == event.creatorId) = false ∧ n = createNotif event eventId u := by
  intro us
  induction us with
  | nil => intro n h; simp [createNotifLoop] at h
  | cons u rest ih =>
    intro n h
    by_cases hc : (u.uid == event.creatorId) = true
    · rw [createNotifLoop, if_pos hc] at h
      obtain ⟨w, hw, hww, hn⟩ := ih h
      exact ⟨w, List.mem_cons_of_mem _ hw, hww, hn⟩
    · rw [createNotifLoop, if_neg hc] at h
      rcases List.mem_cons.mp h with h1 | h2
      · exact ⟨u, List.mem_cons_self u rest, Bool.not_eq_true _ ▸ eq_false_of_ne_true hc, h1⟩
      · obtain ⟨w, hw, hww, hn⟩ := ih h2
        exact ⟨w, List.mem_cons_of_mem _ hw, hww, hn⟩

/-- The create loop emits exactly one record per non-creator user. -/
theorem createNotifLoop_length (event : Event) (eventId : String) :
    ∀ us : List User, (createNotifLoop event eventId us).length =
      (us.filter (fun u => u.uid != event.creatorId)).length := by
  intro us
  induction us with
  | nil => rfl
  | cons u rest ih =>
    by_cases hc : (u.uid == event.creatorId) = true
    · rw [createNotifLoop, if_pos hc]
      simp [List.filter, bne, hc, ih]
    · rw [createNotifLoop, if_neg hc]
      simp only [Bool.not_eq_true] at hc
      simp [List.filter, bne, hc, ih]

/-- C1 counterexample: the update and delete branches write a
notification whose userId equals the creatorId of the triggering event
when the creator appears among the registrations, refuting the claim as
stated. -/
theorem creator_receives_update_and_delete_notifications :
    evUpdAfter.creatorId = "creator1" ∧
    (onEventUpdatedNotifs evUpdBefore evUpdAfter "e9").map (fun n => n.userId) = ["creator1"] ∧
    (onEventDeletedNotifs evUpdBefore).map (fun n => n.userId) = ["creator1"] := by
  decide

/-- C1 amended: on create no notification carries the creatorId - the
creator is skipped in the loop - while on update and delete one
notification is written per registration entry with userId equal to that
entry studentId, with no creator exclusion, so the creator is notified
exactly when their id appears among the registrations.  (The update
branch always reaches its loop: the date reference comparison makes
every update significant.) -/
theorem creator_exclusion_amended :
    ∀ (users : List User) (event : Event) (eventId : String) (n : NotificationRecord)
      (before after : Event),
      (n ∈ onEventCreatedNotifs users event eventId → n.userId ≠ event.creatorId) ∧
      ((onEventUpdatedNotifs before after eventId).map (fun x => x.userId) =
        after.registrations.map (fun r => r.studentId)) ∧
      ((onEventDeletedNotifs event).map (fun x => x.userId) =
        event.registrations.map (fun r => r.studentId)) := by
  intro users event eventId n before after
  refine ⟨?_, ?_, ?_⟩
  · intro h
    obtain ⟨u, _, huc, hn⟩ := mem_createNotifLoop h
    subst hn
    simpa [createNotif] using (beq_eq_false_iff_ne (a := u.uid) (b := event.creatorId)).mp huc
  · have hc : criticalFieldsChanged before after = true := by
      simp [criticalFieldsChanged, dateReferencesDiffer]
    simp [onEventUpdatedNotifs, hc, updateNotif]
  · simp [onEventDeletedNotifs, deleteNotif]

/-- C1 witness: a concrete create-branch notification whose recipient
differs from the creator. -/
theorem creator_exclusion_amended_witness :
    (createNotif evBig "e1" u1CS).userId ≠ evBig.creatorId :=
  (creator_exclusion_amended [u1CS] evBig "e1" (createNotif evBig "e1" u1CS)
    evBig evBig).1 (by decide)

/-- C2 (code bug): at an update whose title, date value and location are
all unchanged and only the description differs, criticalFieldsChanged is
nonetheless true - the date disjunct is a reference comparison between
distinct Timestamp objects - so the branch writes an update notification
for the registered student instead of the none the claim requires. -/
theorem description_only_update_still_notifies :
    evUpdBefore.title = evDescOnly.title ∧
    evUpdBefore.date = evDescOnly.date ∧
    evUpdBefore.location = evDescOnly.location ∧
    evUpdBefore.description ≠ evDescOnly.description ∧
    criticalFieldsChanged evUpdBefore evDescOnly = true ∧
    (onEventUpdatedNotifs evUpdBefore evDescOnly "e1").map (fun n => n.userId) =
      ["creator1"] := by
  decide

/-- C3 counterexample: with a department descriptor whose value is the
empty string, resolution returns a student whose department is not that
value, refuting the claim that a department audience always restricts to
the matching department. -/
theorem empty_department_value_not_restricted :
    u1CS ∈ getTargetAudience [u1CS] "U" ⟨AudienceType.department, some ""⟩ ∧
    u1CS.department ≠ some "" := by
  decide

/-- C3 amended: whenever the department or class value is non-empty (and
always for general), resolution returns exactly the students of the
institution restricted to the matching department or class, as the spec
describes; an empty value instead falls back to the general behaviour. -/
theorem audience_resolution_matches_spec_nonempty :
    ∀ (users : List User) (institution : String) (sa : SpecAudience),
      sa.valueNonEmpty →
      getTargetAudience users institution sa.toDescriptor = resolveSpec users institution sa := by
  intro users institution sa hne
  cases sa with
  | general =>
    have h1 : ((SpecAudience.general.toDescriptor).type == AudienceType.department &&
        truthy (SpecAudience.general.toDescriptor).value) = false := by decide
    have h2 : ((SpecAudience.general.toDescriptor).type == AudienceType.cls &&
        truthy (SpecAudience.general.toDescriptor).value) = false := by decide
    rw [getTargetAudience, if_neg (by simp [h1]), if_neg (by simp [h2])]
    rw [List.filter_filter]
    apply List.filter_congr
    intro a _
    cases ha : (a.role == UserRole.student) <;>
      cases hb : (a.institution == institution) <;> simp [resolveSpec, ha, hb]
  | department v =>
    have hne' : v ≠ "" := hne
    have hv : truthy (some v) = true := by simp [truthy, hne']
    have h1 : (((SpecAudience.department v).toDescriptor).type == AudienceType.department &&
        truthy ((SpecAudience.department v).toDescriptor).value) = true := by
      simp [SpecAudience.toDescriptor, hv]
    rw [getTargetAudience, if_pos (by simp [h1])]
    rw [List.filter_filter, List.filter_filter]
    apply List.filter_congr
    intro a _
    cases ha : (a.role == UserRole.student) <;>
      cases hb : (a.institution == institution) <;>
      cases hc : (a.department == some v) <;>
        simp [resolveSpec, SpecAudience.toDescriptor, ha, hb, hc]
  | cls v =>
    have hne' : v ≠ "" := hne
    have hv : truthy (some v) = true := by simp [truthy, hne']
    have h1 : (((SpecAudience.cls v).toDescriptor).type == AudienceType.department &&
        truthy ((SpecAudience.cls v).toDescriptor).value) = false := by
      simp [SpecAudience.toDescriptor]
    have h2 : (((SpecAudience.cls v).toDescriptor).type == AudienceType.cls &&
        truthy ((SpecAudience.cls v).toDescriptor).value) = true := by
      simp [SpecAudience.toDescriptor, hv]
    rw [getTargetAudience, if_neg (by simp [h1]), if_pos (by simp [h2])]
    rw [List.filter_filter, List.filter_filter]
    apply List.filter_congr
    intro a _
    cases ha : (a.role == UserRole.student) <;>
      cases hb : (a.institution == institution) <;>
      cases hc : (a.cls == some v) <;>
        simp [resolveSpec, SpecAudience.toDescriptor, ha, hb, hc]

/-- C3 witness: a concrete non-empty department audience where the code
and the spec-side resolver agree. -/
theorem audience_resolution_matches_spec_nonempty_witness :
    getTargetAudience [u1CS, lectU, adminV] "U" (SpecAudience.department "CS").toDescriptor =
      resolveSpec [u1CS, lectU, adminV] "U" (SpecAudience.department "CS") :=
  audience_resolution_matches_spec_nonempty [u1CS, lectU, adminV] "U"
    (SpecAudience.department "CS") (show ("CS" : String) ≠ "" by decide)

set_option maxRecDepth 100000 in
/-- C4 counterexample: for a recipient set of 1200 users the create
handler performs one single batch commit of 1200 operations, not three
commits of at most 500. -/
theorem batch_writer_single_commit_of_1200 :
    (onEventCreatedCommits users1200 evBig "e1").map List.length = [1200] := by
  decide

/-- C4 amended: the writer never splits - it performs exactly one commit
holding one write per recipient (the create branch), and the reminder
sweep performs at most one commit, whatever the recipient count. -/
theorem batch_writer_one_unbounded_commit :
    ∀ (users : List User) (event : Event) (eventId : String)
      (events : List (String × Event)) (now : Int),
      onEventCreatedCommits users event eventId = [onEventCreatedNotifs users event eventId] ∧
      (onEventCreatedNotifs users event eventId).length =
        ((getTargetAudience users event.institution event.targetAudience).filter
          (fun u => u.uid != event.creatorId)).length ∧
      (sendEventRemindersCommits events now).length ≤ 1 := by
  intro users event eventId events now
  refine ⟨rfl, createNotifLoop_length event eventId _, ?_⟩
  by_cases h : (sendEventRemindersNotifs events now).length > 0
  · simp [sendEventRemindersCommits, h]
  · simp [sendEventRemindersCommits, h]

/-- C5 counterexample: the cancellation record carries eventId and link
present with value null, not absent. -/
theorem cancellation_fields_null_not_absent :
    (onEventDeletedNotifs evUpdBefore).map (fun n => n.eventId) = [FieldVal.null] ∧
    (onEventDeletedNotifs evUpdBefore).map (fun n => n.link) = [FieldVal.null] ∧
    FieldVal.null ≠ FieldVal.absent := by
  decide

/-- C5 amended: delete-branch records set eventId and link explicitly to
null (present, null-valued), while create- and update-branch records
carry the event id and its deep link. -/
theorem notification_link_fields_amended :
    ∀ (users : List User) (event : Event) (before after : Event) (eventId : String)
      (n : NotificationRecord),
      (n ∈ onEventDeletedNotifs event → n.eventId = FieldVal.null ∧ n.link = FieldVal.null) ∧
      (n ∈ onEventCreatedNotifs users event eventId →
        n.eventId = FieldVal.str eventId ∧ n.link = FieldVal.str ("/events/" ++ eventId)) ∧
      (n ∈ onEventUpdatedNotifs before after eventId →
        n.eventId = FieldVal.str eventId ∧ n.link = FieldVal.str ("/events/" ++ eventId)) := by
  intro users event before after eventId n
  refine ⟨?_, ?_, ?_⟩
  · intro h
    obtain ⟨r, _, rfl⟩ := List.mem_map.mp h
    exact ⟨rfl, rfl⟩
  · intro h
    obtain ⟨u, _, _, rfl⟩ := mem_createNotifLoop h
    exact ⟨rfl, rfl⟩
  · intro h
    unfold onEventUpdatedNotifs at h
    split at h
    · simp at h
    · obtain ⟨r, _, rfl⟩ := List.mem_map.mp h
      exact ⟨rfl, rfl⟩

/-- C5 witness: concrete records of the three branches with the amended
field values. -/
theorem notification_link_fields_amended_witness :
    ((deleteNotif evSoon regA).eventId = FieldVal.null ∧
      (deleteNotif evSoon regA).link = FieldVal.null) ∧
    ((createNotif evBig "e1" u1CS).eventId = FieldVal.str "e1" ∧
      (createNotif evBig "e1" u1CS).link = FieldVal.str ("/events/" ++ "e1")) ∧
    ((updateNotif evUpdAfter "e9" creatorReg).eventId = FieldVal.str "e9" ∧
      (updateNotif evUpdAfter "e9" creatorReg).link = FieldVal.str ("/events/" ++ "e9")) :=
  ⟨(notification_link_fields_amended [u1CS] evSoon evUpdBefore evUpdAfter "x"
      (deleteNotif evSoon regA)).1 (by decide),
   (notification_link_fields_amended [u1CS] evBig evUpdBefore evUpdAfter "e1"
      (createNotif evBig "e1" u1CS)).2.1 (by decide),
   (notification_link_fields_amended [u1CS] evBig evUpdBefore evUpdAfter "e9"
      (updateNotif evUpdAfter "e9" creatorReg)).2.2 (by decide)⟩

/-- C6: the unauthenticated check is surfaced, but the invalid-argument
self-deletion error, the cross-institution permission error and the
non-admin permission error are all re-wrapped by the catch block and
surface with code internal; a legitimate deletion succeeds. -/
theorem delete_user_error_codes_surfaced :
    deleteUserCallable none usersDb "a2" (Except.ok ()) (Except.ok ()) =
      Except.error ⟨FnErrorCode.unauthenticated, "Must be authenticated"⟩ ∧
    deleteUserCallable (some "a1") usersDb "a1" (Except.ok ()) (Except.ok ()) =
      Except.error ⟨FnErrorCode.internal, "Cannot delete your own account"⟩ ∧
    deleteUserCallable (some "a1") usersDb "a2" (Except.ok ()) (Except.ok ()) =
      Except.error ⟨FnErrorCode.internal, "Cannot delete users from other institutions"⟩ ∧
    deleteUserCallable (some "s9") usersDb "a1" (Except.ok ()) (Except.ok ()) =
      Except.error ⟨FnErrorCode.internal, "Only admins can delete users"⟩ ∧
    deleteUserCallable (some "a1") usersDb "s9" (Except.ok ()) (Except.ok ()) =
      Except.ok true := by
  refine ⟨rfl, rfl, rfl, rfl, rfl⟩

/-- C7: registering a studentId already present among the registrations
fails with already_exists and leaves the event document unchanged, and
likewise for feedback already submitted by the same studentId. -/
theorem duplicate_registration_and_feedback_rejected :
    (∀ (uid : String) (event : Event) (reg : Registration) (nowTs : Int),
      event.registrations.any (fun r => r.studentId == reg.studentId) = true →
      registerForEvent (some uid) (some event) reg nowTs =
        (Except.error ⟨ErrorCode.alreadyExists, "Already registered for this event", 409⟩,
         some event)) ∧
    (∀ (uid : String) (event : Event) (fb : Feedback) (nowTs : Int),
      event.feedback.any (fun f => f.studentId == fb.studentId) = true →
      submitFeedback (some uid) (some event) fb nowTs =
        (Except.error ⟨ErrorCode.alreadyExists, "Feedback already submitted", 409⟩,
         some event)) := by
  constructor
  · intro uid event reg nowTs h
    simp [registerForEvent, h]
  · intro uid event fb nowTs h
    simp [submitFeedback, h]

/-- C7 witness: a second registration and a second feedback submission
by s1 on a concrete event both fail with already_exists and leave the
document as it was. -/
theorem duplicate_registration_and_feedback_rejected_witness :
    registerForEvent (some "u9") (some evWithS1) regS1 7 =
      (Except.error ⟨ErrorCode.alreadyExists, "Already registered for this event", 409⟩,
       some evWithS1) ∧
    submitFeedback (some "u9") (some evWithS1) fbS1 7 =
      (Except.error ⟨ErrorCode.alreadyExists, "Feedback already submitted", 409⟩,
       some evWithS1) :=
  ⟨duplicate_registration_and_feedback_rejected.1 "u9" evWithS1 regS1 7 (by decide),
   duplicate_registration_and_feedback_rejected.2 "u9" evWithS1 fbS1 7 (by decide)⟩

/-- C8: one reminder record is produced per registration entry of each
event inside the 24-hour window, every record originates from an
in-window event, and a run matching no event commits nothing. -/
theorem reminder_sweep_window_exact :
    ∀ (events : List (String × Event)) (now : Int),
      ((sendEventRemindersNotifs events now).length =
        ((events.filter (fun p => inReminderWindow now p.2)).map
          (fun p => p.2.registrations.length)).sum) ∧
      (∀ n ∈ sendEventRemindersNotifs events now,
        n.type = NotificationType.eventReminder ∧
        ∃ p ∈ events, inReminderWindow now p.2 = true ∧
          ∃ r ∈ p.2.registrations, n = reminderNotif p.1 p.2 r) ∧
      (events.filter (fun p => inReminderWindow now p.2) = [] →
        sendEventRemindersCommits events now = []) := by
  intro events now
  refine ⟨?_, ?_, ?_⟩
  · unfold sendEventRemindersNotifs
    rw [List.length_flatMap]
    simp only [Function.comp_def, List.length_map]
  · intro n hn
    unfold sendEventRemindersNotifs at hn
    obtain ⟨p, hp, hmap⟩ := List.mem_flatMap.mp hn
    obtain ⟨hpev, hwin⟩ := List.mem_filter.mp hp
    obtain ⟨r, hr, rfl⟩ := List.mem_map.mp hmap
    exact ⟨rfl, p, hpev, hwin, r, hr, rfl⟩
  · intro h
    unfold sendEventRemindersCommits sendEventRemindersNotifs
    rw [h]
    simp

/-- C8 witness: with now = 0, an event at hour 12 with two registrants
and one at hour 48: a record of the first event is traced back to its
registration, and a store holding only the out-of-window event commits
nothing. -/
theorem reminder_sweep_window_exact_witness :
    ((reminderNotif "e1" evSoon regA).type = NotificationType.eventReminder ∧
      ∃ p ∈ evsEx, inReminderWindow 0 p.2 = true ∧
        ∃ r ∈ p.2.registrations, reminderNotif "e1" evSoon regA = reminderNotif p.1 p.2 r) ∧
    sendEventRemindersCommits [("e2", evLater)] 0 = [] :=
  ⟨(reminder_sweep_window_exact evsEx 0).2.1 (reminderNotif "e1" evSoon regA) (by decide),
   (reminder_sweep_window_exact [("e2", evLater)] 0).2.2 (by decide)⟩

/-- C9: whatever the outcome of the injected audience query, window
query and batch commits, none of the three mutation handlers nor the
reminder sweep lets an error escape to its caller. -/
theorem handlers_never_propagate_errors :
    ∀ (audienceRes : Except String (List User))
      (c1 c2 c3 c4 : Except String Unit)
      (event before after : Event) (eventId : String)
      (queryRes : Except String (List (String × Event))) (now : Int),
      (onEventCreatedHandler audienceRes c1 event eventId).isThrown = false ∧
      (onEventUpdatedHandler c2 before after eventId).isThrown = false ∧
      (onEventDeletedHandler c3 event).isThrown = false ∧
      (sendEventRemindersHandler queryRes c4 now).isThrown = false := by
  intro audienceRes c1 c2 c3 c4 event before after eventId queryRes now
  refine ⟨?_, ?_, ?_, ?_⟩
  · cases audienceRes <;> cases c1 <;> rfl
  · unfold onEventUpdatedHandler
    split
    · rfl
    · split
      · rfl
      · cases c2 <;> rfl
  · unfold onEventDeletedHandler
    split
    · rfl
    · cases c3 <;> rfl
  · cases queryRes with
    | error e => rfl
    | ok evs =>
      by_cases h : (sendEventRemindersNotifs evs now).length > 0
      · cases c4 <;> simp [sendEventRemindersHandler, h, HandlerOutcome.isThrown]
      · simp [sendEventRemindersHandler, h, HandlerOutcome.isThrown]

/-- C10: a department or class descriptor with a missing or empty value
does not fail and does not restrict: resolution falls back to the
general behaviour and returns every student of the institution. -/
theorem empty_audience_value_falls_back_to_general :
    ∀ (users : List User) (institution : String) (ta : TargetAudience),
      (ta.type = AudienceType.department ∨ ta.type = AudienceType.cls) →
      (ta.value = none ∨ ta.value = some "") →
      getTargetAudience users institution ta =
        resolveSpec users institution SpecAudience.general := by
  intro users institution ta _ hval
  have hta : truthy ta.value = false := by
    rcases hval with h | h <;> simp [h, truthy]
  rw [getTargetAudience, if_neg (by simp [hta]), if_neg (by simp [hta])]
  rw [List.filter_filter]
  apply List.filter_congr
  intro a _
  cases ha : (a.role == UserRole.student) <;>
    cases hb : (a.institution == institution) <;> simp [resolveSpec, ha, hb]

/-- C10 witness: a department descriptor with empty value over a mixed
user base resolves to all students of the institution. -/
theorem empty_audience_value_falls_back_to_general_witness :
    getTargetAudience [u1CS, lectU, adminV] "U" ⟨AudienceType.department, some ""⟩ =
      resolveSpec [u1CS, lectU, adminV] "U" SpecAudience.general :=
  empty_audience_value_falls_back_to_general [u1CS, lectU, adminV] "U"
    ⟨AudienceType.department, some ""⟩ (Or.inl rfl) (Or.inr rfl)

end SmartEvent
